import Mathlib

/-!
Verification of `netlify/functions/ai-proxy.js`, a request-forwarding shim
that validates a chat request, resolves an API key, routes to one of three
provider adapters (OpenAI, Gemini, DeepSeek), and normalizes the provider
response into `\x7btext, provider, model, raw\x7d`.

The JavaScript is shallowly embedded: JSON values are an inductive type,
the handler after JSON-body parsing is a function from the parsed payload
and environment to either an early HTTP response or an adapter invocation,
and each adapter is a function from its arguments and the (synthetic)
upstream HTTP response to `Except String Json`, where `Except.error e`
models `throw new Error(e)`.  Host primitives (`JSON.parse`, `fetch`) are
parameters; `JSON.stringify`, `trim`, `toLowerCase` and string coercion
are modelled explicitly with ASCII-level fidelity (JS number formatting
and Unicode case folding are approximated, which no claim exercises).
-/

namespace AiProxy

/- JSON values, as produced by `JSON.parse` and consumed by the handler.
Arrays and objects are mutual inductives (rather than nested `List`s) so
that every function below is structurally recursive and kernel-reducible.
Numbers are rationals (no claim depends on float behaviour). -/
mutual

inductive Json where
  | null : Json
  | bool : Bool → Json
  | num : ℚ → Json
  | str : String → Json
  | arr : JsonArr → Json
  | obj : JsonObj → Json

inductive JsonArr where
  | nil : JsonArr
  | cons : Json → JsonArr → JsonArr

inductive JsonObj where
  | nil : JsonObj
  | cons : String → Json → JsonObj → JsonObj

end

/-- Build a JSON array from a list of elements. -/
def JsonArr.ofList : List Json → JsonArr
  | [] => .nil
  | j :: js => .cons j (JsonArr.ofList js)

/-- The elements of a JSON array, as a list. -/
def JsonArr.toList : JsonArr → List Json
  | .nil => []
  | .cons j js => j :: js.toList

/-- Build a JSON object from a key/value list. -/
def JsonObj.ofList : List (String × Json) → JsonObj
  | [] => .nil
  | (k, v) :: kvs => .cons k v (JsonObj.ofList kvs)

/-- JSON array literal. -/
def jarr (l : List Json) : Json := Json.arr (JsonArr.ofList l)

/-- JSON object literal (the key lists we build carry no duplicates). -/
def jobj (l : List (String × Json)) : Json := Json.obj (JsonObj.ofList l)

/-- First value bound to a key in an object. -/
def JsonObj.lookup : JsonObj → String → Option Json
  | .nil, _ => none
  | .cons k v tl, key => if k = key then some v else tl.lookup key

/-- JS property access `v.k`: non-objects have no own string properties. -/
def Json.getField : Json → String → Option Json
  | .obj kvs, k => kvs.lookup k
  | _, _ => none

/-- `xs?.[0]` on a JSON value: the first element when it is an array
(string indexing of a non-array is not modelled; no claim exercises
it). -/
def Json.elem0 : Json → Option Json
  | .arr (.cons j _) => some j
  | _ => none

/-- JS truthiness of a JSON value (`undefined`, i.e. an absent field, is
handled by the `Option` layer at call sites). -/
def jsTruthy : Json → Bool
  | .null => false
  | .bool b => b
  | .num q => q ≠ 0
  | .str s => s ≠ ""
  | .arr _ => true
  | .obj _ => true

/-- One hexadecimal digit, lower case. -/
def hexDigit (n : Nat) : Char :=
  if n < 10 then Char.ofNat (48 + n) else Char.ofNat (87 + (n % 16))

/-- Four-digit hexadecimal rendering used by the `\u00XX` escapes. -/
def hex4 (n : Nat) : String :=
  String.mk [hexDigit (n / 4096 % 16), hexDigit (n / 256 % 16),
             hexDigit (n / 16 % 16), hexDigit (n % 16)]

/-- `JSON.stringify` escaping of one character inside a string literal. -/
def escapeChar (c : Char) : String :=
  if c = '"' then "\\\""
  else if c = '\\' then "\\\\"
  else if c = '\n' then "\\n"
  else if c = '\r' then "\\r"
  else if c = '\t' then "\\t"
  else if c.toNat < 32 then "\\u" ++ hex4 c.toNat
  else String.singleton c

/-- `JSON.stringify` rendering of a string, quotes included. -/
def escapeString (s : String) : String :=
  "\"" ++ String.join (s.toList.map escapeChar) ++ "\""

/- JSON.stringify (number formatting approximated; no claim stringifies a
number). -/
mutual

/-- `JSON.stringify` of one JSON value. -/
def stringify : Json → String
  | .null => "null"
  | .bool true => "true"
  | .bool false => "false"
  | .num q => toString q
  | .str s => escapeString s
  | .arr xs => "[" ++ stringifyArr xs ++ "]"
  | .obj kvs => "\x7b" ++ stringifyObj kvs ++ "\x7d"

/-- Comma-separated renderings of array elements. -/
def stringifyArr : JsonArr → String
  | .nil => ""
  | .cons j .nil => stringify j
  | .cons j tl => stringify j ++ "," ++ stringifyArr tl

/-- Comma-separated `"key":value` renderings of object fields. -/
def stringifyObj : JsonObj → String
  | .nil => ""
  | .cons k v .nil => escapeString k ++ ":" ++ stringify v
  | .cons k v tl => escapeString k ++ ":" ++ stringify v ++ "," ++
      stringifyObj tl

end

/-- JS `x || d` for a string-valued field that may be absent: the default
is taken when the field is missing or the empty string (both falsy). -/
def jsOr (o : Option String) (d : String) : String :=
  match o with
  | some s => if s = "" then d else s
  | none => d

/-- JS `x || null` for a string-valued field: an empty string collapses to
null (used for the optional system prompt). -/
def jsOrNull (o : Option String) : Option String :=
  match o with
  | some s => if s = "" then none else some s
  | none => none

/-- The whitespace characters removed by JS `String.prototype.trim`
(restricted to the ASCII range; no claim uses non-ASCII whitespace). -/
def jsIsWhitespace (c : Char) : Bool :=
  c = ' ' ∨ c = '\t' ∨ c = '\n' ∨ c = '\r' ∨
  c = Char.ofNat 11 ∨ c = Char.ofNat 12

/-- JS `s.trim()`: strip leading and trailing whitespace. -/
def jsTrim (s : String) : String :=
  ⟨((s.data.dropWhile jsIsWhitespace).reverse.dropWhile
     jsIsWhitespace).reverse⟩

/-- JS `s.toLowerCase()` (ASCII case folding; the provider names the
handler compares against are all ASCII). -/
def jsToLower (s : String) : String :=
  ⟨s.data.map (fun c =>
    if 'A' ≤ c ∧ c ≤ 'Z' then Char.ofNat (c.toNat + 32) else c)⟩

/-- The request payload after `JSON.parse` succeeds.  Each field of the
body the handler reads is a string or absent (`undefined`). -/
structure Payload where
  provider : Option String := none
  model : Option String := none
  apiKey : Option String := none
  system : Option String := none
  message : Option String := none

/-- The three environment variables consulted by `envKeyFor`
(`process.env.X` is a string or `undefined`). -/
structure Env where
  OPENAI_API_KEY : Option String := none
  GEMINI_API_KEY : Option String := none
  DEEPSEEK_API_KEY : Option String := none

/-- A synthetic upstream `fetch` response: its `ok` flag, `status`, and the
body text that `res.text()` yields. -/
structure UpstreamResponse where
  ok : Bool
  status : Nat
  text : String

/-- The HTTP response the handler produces.  The constant CORS /
content-type headers are omitted; `body` is the raw body string (the
`json` helper stringifies, the OPTIONS branch sends `""` directly). -/
structure HttpResponse where
  statusCode : Nat
  body : String
deriving DecidableEq

/-- The `json(statusCode, body)` helper: stringify the body. -/
def json (statusCode : Nat) (body : Json) : HttpResponse :=
  ⟨statusCode, stringify body⟩

/-- `defaultModel(provider)` — the switch written as an if-chain. -/
def defaultModel (provider : String) : String :=
  if provider = "openai" then "gpt-4o-mini"
  else if provider = "gemini" then "gemini-1.5-pro"
  else if provider = "deepseek" then "deepseek-chat"
  else "gpt-4o-mini"

/-- `envKeyFor(provider)` — `process.env.X || ""` per provider, `""` in the
default case. -/
def envKeyFor (provider : String) (env : Env) : String :=
  if provider = "openai" then jsOr env.OPENAI_API_KEY ""
  else if provider = "gemini" then jsOr env.GEMINI_API_KEY ""
  else if provider = "deepseek" then jsOr env.DEEPSEEK_API_KEY ""
  else ""

/-- `safeJson`: read the body as text, try to parse it as JSON, and on a
parse failure return the fallback wrapper instead of raising.  The host
`JSON.parse` is the parameter `parse` (`none` models a thrown
`SyntaxError`). -/
def safeJson (parse : String → Option Json) (text : String) : Json :=
  match parse text with
  | some j => j
  | none => jobj [("_raw", Json.str text)]

/-- The arguments each `call*` adapter receives from the handler. -/
structure AdapterArgs where
  apiKey : String
  model : String
  system : Option String
  message : String
deriving DecidableEq

/-- The chat-completions request body built by `callOpenAI`: optional
system message, then the user message, temperature 0.7. -/
def openAIRequestBody (a : AdapterArgs) : Json :=
  jobj
    [("model", Json.str a.model),
     ("messages", jarr
       ((match a.system with
         | some s => [jobj [("role", Json.str "system"),
                            ("content", Json.str s)]]
         | none => []) ++
        [jobj [("role", Json.str "user"),
               ("content", Json.str a.message)]])),
     ("temperature", Json.num (7 / 10))]

/-- The request body built by `callDeepSeek` (textually the same shape as
the OpenAI one: model, messages, temperature — no token cap). -/
def deepSeekRequestBody (a : AdapterArgs) : Json :=
  jobj
    [("model", Json.str a.model),
     ("messages", jarr
       ((match a.system with
         | some s => [jobj [("role", Json.str "system"),
                            ("content", Json.str s)]]
         | none => []) ++
        [jobj [("role", Json.str "user"),
               ("content", Json.str a.message)]])),
     ("temperature", Json.num (7 / 10))]

/-- The `contents` request body built by `callGemini`: an optional leading
system-role turn, then the user turn, each with a single text part. -/
def geminiRequestBody (a : AdapterArgs) : Json :=
  jobj
    [("contents", jarr
      ((match a.system with
        | some s => [jobj [("role", Json.str "system"),
                           ("parts", jarr [jobj [("text", Json.str s)]])]]
        | none => []) ++
       [jobj [("role", Json.str "user"),
              ("parts", jarr [jobj [("text", Json.str a.message)]])]]))]

/-- The optional-chain `raw?.choices?.[0]?.message?.content`. -/
def openAIContent (raw : Json) : Option Json := do
  let choices ← raw.getField "choices"
  let c0 ← choices.elem0
  let msg ← c0.getField "message"
  msg.getField "content"

/-- `raw?.choices?.[0]?.message?.content?.trim?.() || ""`: the trimmed
content when it is a string, `""` otherwise (a non-string has no `trim`
method, so the chain yields `undefined` and `||` supplies `""`; a
whitespace-only string trims to `""`, which `||` also maps to `""`). -/
def extractOpenAIText (raw : Json) : String :=
  match openAIContent raw with
  | some (Json.str s) => jsTrim s
  | _ => ""

/-- The optional-chain `raw?.candidates?.[0]?.content?.parts`. -/
def geminiParts (raw : Json) : Option Json := do
  let cands ← raw.getField "candidates"
  let c0 ← cands.elem0
  let content ← c0.getField "content"
  content.getField "parts"

/-- `p?.text || ""` for one element of the parts array: the `text`
property when truthy, the empty string otherwise (also when `p` is null or
not an object). -/
def geminiPartText (p : Json) : Json :=
  match p.getField "text" with
  | some t => if jsTruthy t then t else Json.str ""
  | none => Json.str ""

/- String coercion applied by Array.prototype.join. -/
mutual

/-- String coercion applied by `Array.prototype.join`: null/undefined
render empty, nested arrays join with commas, objects render as
"[object Object]" (number formatting approximated; no claim joins a
number). -/
def jsJoinStr : Json → String
  | .null => ""
  | .bool true => "true"
  | .bool false => "false"
  | .num q => toString q
  | .str s => s
  | .arr xs => jsJoinArr xs
  | .obj _ => "[object Object]"

/-- Comma-separated coercion of nested array elements. -/
def jsJoinArr : JsonArr → String
  | .nil => ""
  | .cons j .nil => jsJoinStr j
  | .cons j tl => jsJoinStr j ++ "," ++ jsJoinArr tl

end

/-- `parts.map(p => p?.text || "")`, joined with `""`: the coerced text of
each part, in order. -/
def geminiPartTexts : JsonArr → List String
  | .nil => []
  | .cons p tl => jsJoinStr (geminiPartText p) :: geminiPartTexts tl

/-- `raw?.candidates?.[0]?.content?.parts?.map(p => p?.text || "")
.join("")?.trim() || ""`: map every part to its text (or `""`), join, and
trim.  When the chain is broken (`parts` absent) the result is `""`; a
`parts` value that is not an array would make `.map` throw a TypeError in
JS — no claim reaches that shape, and it is modelled as `""` here. -/
def extractGeminiText (raw : Json) : String :=
  match geminiParts raw with
  | some (Json.arr ps) => jsTrim (String.join (geminiPartTexts ps))
  | _ => ""

/-- `callOpenAI`: decode the upstream body with `safeJson`, throw
`OpenAI: status body` on a non-ok status, else extract the text and build
the result object. -/
def callOpenAI (a : AdapterArgs) (parse : String → Option Json)
    (res : UpstreamResponse) : Except String Json :=
  let raw := safeJson parse res.text
  if res.ok then
    Except.ok (jobj
      [("text", Json.str (extractOpenAIText raw)),
       ("provider", Json.str "openai"),
       ("model", Json.str a.model),
       ("raw", raw)])
  else
    Except.error ("OpenAI: " ++ toString res.status ++ " " ++ stringify raw)

/-- `callGemini`: same decode/throw, Gemini-shaped extraction. -/
def callGemini (a : AdapterArgs) (parse : String → Option Json)
    (res : UpstreamResponse) : Except String Json :=
  let raw := safeJson parse res.text
  if res.ok then
    Except.ok (jobj
      [("text", Json.str (extractGeminiText raw)),
       ("provider", Json.str "gemini"),
       ("model", Json.str a.model),
       ("raw", raw)])
  else
    Except.error ("Gemini: " ++ toString res.status ++ " " ++ stringify raw)

/-- `callDeepSeek`: identical control flow to `callOpenAI` with the
DeepSeek label. -/
def callDeepSeek (a : AdapterArgs) (parse : String → Option Json)
    (res : UpstreamResponse) : Except String Json :=
  let raw := safeJson parse res.text
  if res.ok then
    Except.ok (jobj
      [("text", Json.str (extractOpenAIText raw)),
       ("provider", Json.str "deepseek"),
       ("model", Json.str a.model),
       ("raw", raw)])
  else
    Except.error ("DeepSeek: " ++ toString res.status ++ " " ++ stringify raw)

/-- The adapter invocation the handler's switch selects, with the argument
object it passes (`\x7b apiKey, model, system, message \x7d`). -/
inductive AdapterCall where
  | openai : AdapterArgs → AdapterCall
  | gemini : AdapterArgs → AdapterCall
  | deepseek : AdapterArgs → AdapterCall
deriving DecidableEq

/-- The argument object of an adapter invocation. -/
def AdapterCall.args : AdapterCall → AdapterArgs
  | .openai a => a
  | .gemini a => a
  | .deepseek a => a

/-- The label each adapter prepends to its thrown error message. -/
def adapterLabel : AdapterCall → String
  | .openai _ => "OpenAI"
  | .gemini _ => "Gemini"
  | .deepseek _ => "DeepSeek"

/-- How far `exports.handler` gets before any outbound call: either an
early response (no adapter invoked, no outbound call), or the adapter
invocation about to be awaited. -/
inductive Step where
  | done : HttpResponse → Step
  | call : AdapterCall → Step
deriving DecidableEq

/-- The body of `exports.handler` from the line computing `provider`
onward, with the already-lowercased provider passed in: compute
message/model/system, validate the message, resolve the API key
(request override > env), validate it, then the provider switch
(written as an if-chain; `gemini` and `google` share a case). -/
def routeRequest (provider : String) (payload : Payload) (env : Env) :
    Step :=
  let message := jsTrim (jsOr payload.message "")
  let model := jsOr payload.model (defaultModel provider)
  let system := jsOrNull payload.system
  if message = "" then
    .done (json 400 (jobj
      [("error", Json.str "Missing \x27message\x27.")]))
  else
    let keyFromBody := jsTrim (jsOr payload.apiKey "")
    let apiKey := if keyFromBody = "" then envKeyFor provider env
                  else keyFromBody
    if apiKey = "" then
      .done (json 400 (jobj
        [("error", Json.str ("Missing API key for provider \x27" ++
                             provider ++ "\x27."))]))
    else if provider = "openai" then
      .call (.openai ⟨apiKey, model, system, message⟩)
    else if provider = "gemini" ∨ provider = "google" then
      .call (.gemini ⟨apiKey, model, system, message⟩)
    else if provider = "deepseek" then
      .call (.deepseek ⟨apiKey, model, system, message⟩)
    else
      .done (json 400 (jobj
        [("error", Json.str ("Unsupported provider \x27" ++
                             provider ++ "\x27."))]))

/-- `exports.handler` up to (but not including) the outbound call: method
dispatch (OPTIONS preflight, POST only), JSON body parsing (`parsed =
none` models a parse failure on `event.body || "\x7b\x7d"`), then
`routeRequest` on the lowercased defaulted provider. -/
def handlerStep (httpMethod : String) (parsed : Option Payload)
    (env : Env) : Step :=
  if httpMethod = "OPTIONS" then .done ⟨200, ""⟩
  else if httpMethod ≠ "POST" then
    .done (json 405 (jobj
      [("error", Json.str "Method Not Allowed. Use POST.")]))
  else
    match parsed with
    | none => .done (json 400 (jobj
        [("error", Json.str "Invalid JSON body")]))
    | some payload =>
        routeRequest (jsToLower (jsOr payload.provider "openai")) payload env

/-- Run the selected adapter against the (synthetic) upstream response. -/
def runAdapter (c : AdapterCall) (parse : String → Option Json)
    (res : UpstreamResponse) : Except String Json :=
  match c with
  | .openai a => callOpenAI a parse res
  | .gemini a => callGemini a parse res
  | .deepseek a => callDeepSeek a parse res

/-- The whole of `exports.handler` for a single request: an early return
stands, otherwise the adapter result is returned as 200, and a thrown
adapter error is caught by the top-level try/catch and surfaced as
`500 \x7b error: "Internal error", detail: String(err.message) \x7d`
(adapter error messages are never empty, so `err?.message || err` is the
message). -/
def handler (httpMethod : String) (parsed : Option Payload) (env : Env)
    (parse : String → Option Json) (res : UpstreamResponse) :
    HttpResponse :=
  match handlerStep httpMethod parsed env with
  | .done r => r
  | .call c =>
      match runAdapter c parse res with
      | .ok result => json 200 result
      | .error e => json 500 (jobj
          [("error", Json.str "Internal error"),
           ("detail", Json.str e)])

/-- The provider string the handler works with: the payload's provider
defaulted to "openai" and lowercased. -/
def requestProvider (payload : Payload) : String :=
  jsToLower (jsOr payload.provider "openai")

/-- Restated from the spec's words, for comparison with the handler
(ResolvedCredential): the key actually used — the per-request override
(non-empty after trimming) takes precedence over the provider-specific
process-wide default; `none` when neither is present. -/
def specResolvedKey (payload : Payload) (env : Env) : Option String :=
  let override := jsTrim (jsOr payload.apiKey "")
  if override ≠ "" then some override
  else
    let fallback := envKeyFor (requestProvider payload) env
    if fallback ≠ "" then some fallback else none

/-- Restated from the spec's words: the string a part contributes to the
concatenation — its `text` field when that is a string, nothing
otherwise. -/
def specPartText (p : Json) : Option String :=
  match p.getField "text" with
  | some (Json.str s) => some s
  | _ => none

/-- Restated from the spec's words, for comparison with
`extractGeminiText`: the plain concatenation of all text parts of the
first candidate's content. -/
def specGeminiConcat (raw : Json) : String :=
  match geminiParts raw with
  | some (Json.arr ps) => String.join (ps.toList.filterMap specPartText)
  | _ => ""

/-- A well-shaped Gemini success body whose first candidate carries the
given text parts (`rest` are any further candidates). -/
def mkGeminiResponse (ts : List String) (rest : List Json) : Json :=
  jobj [("candidates", jarr
    (jobj [("content", jobj
      [("parts", jarr (ts.map (fun s =>
        jobj [("text", Json.str s)])))])] :: rest))]

/-! ## Theorems -/

/-- Claim C1: for every POST request whose body is missing `message` or
whose `message` trims to the empty string, the handler returns the 400
missing-message error before any adapter is selected — the `Step.done`
result means no adapter function is invoked and no outbound call is
made. -/
theorem claim1_missing_message_rejected (payload : Payload) (env : Env)
    (h : jsTrim (jsOr payload.message "") = "") :
    handlerStep "POST" (some payload) env =
      .done (json 400 (jobj [("error", Json.str "Missing \x27message\x27.")])) := by
  simp [handlerStep, routeRequest, h]

/-- Witness for C1: a whitespace-only `message` is rejected with 400. -/
theorem claim1_witness :
    handlerStep "POST" (some { message := some "  " }) ({} : Env) =
      .done (json 400 (jobj [("error", Json.str "Missing \x27message\x27.")])) :=
  claim1_missing_message_rejected { message := some "  " } {} (by decide)

/-- Counterexample to C2 as stated: provider `"google"` is not one of the
enum values \x7bopenai, gemini, deepseek\x7d, yet the handler does not
return 400 — it invokes the Gemini adapter (an outbound call). -/
theorem claim2_counterexample :
    handlerStep "POST"
      (some ⟨some "google", none, some "k", none, some "hi"⟩) ({} : Env) =
      .call (.gemini ⟨"k", "gpt-4o-mini", none, "hi"⟩) ∧
    ("google" ≠ "openai" ∧ "google" ≠ "gemini" ∧ "google" ≠ "deepseek") := by
  decide

/-- Claim C2 (amended): for every request whose `provider` value
(lowercased) is not one of \x7bopenai, gemini, google, deepseek\x7d —
`google` being an accepted alias routed to the Gemini adapter — the
handler returns a 400 and invokes no provider adapter. -/
theorem claim2_unsupported_provider_rejected (payload : Payload) (env : Env)
    (h : requestProvider payload ∉ ["openai", "gemini", "google", "deepseek"]) :
    ∃ body, handlerStep "POST" (some payload) env = .done (json 400 body) := by
  simp only [List.mem_cons, List.not_mem_nil, or_false, not_or] at h
  obtain ⟨h1, h2, h3, h4⟩ := h
  simp only [handlerStep, requestProvider] at *
  rw [if_neg (by decide), if_neg (by decide)]
  simp only [routeRequest]
  split_ifs <;> first | exact ⟨_, rfl⟩ | simp_all

/-- Witness for C2 (amended): provider `"anthropic"` is rejected with a
400 even though a key is supplied. -/
theorem claim2_witness :
    ∃ body, handlerStep "POST"
      (some ⟨some "anthropic", none, some "k", none, some "hi"⟩) ({} : Env) =
      .done (json 400 body) :=
  claim2_unsupported_provider_rejected
    ⟨some "anthropic", none, some "k", none, some "hi"⟩ {} (by decide)

/-- Claim C3: whenever an adapter is invoked, the API key it receives is
exactly the spec's ResolvedCredential (per-request override, non-empty
after trimming, else the provider's process-wide key); and when the
resolved credential is absent the handler stops with a 400 and no adapter
is invoked. -/
theorem claim3_key_resolution (payload : Payload) (env : Env) :
    (∀ c, handlerStep "POST" (some payload) env = .call c →
        specResolvedKey payload env = some (AdapterCall.args c).apiKey) ∧
    (specResolvedKey payload env = none →
        ∃ body, handlerStep "POST" (some payload) env =
          .done (json 400 body)) := by
  constructor
  · intro c hc
    simp only [handlerStep] at hc
    rw [if_neg (by decide), if_neg (by decide)] at hc
    simp only [routeRequest] at hc
    simp only [specResolvedKey, requestProvider]
    split_ifs at hc ⊢ <;> (try cases hc) <;> simp_all [AdapterCall.args]
  · intro hn
    simp only [specResolvedKey, requestProvider] at hn
    simp only [handlerStep]
    rw [if_neg (by decide), if_neg (by decide)]
    simp only [routeRequest]
    split_ifs at hn ⊢ <;> first | exact ⟨_, rfl⟩ | simp_all

/-- Witness for C3: a request override "k" is the key the OpenAI adapter
receives, and a request with no override and no configured key stops with
a 400. -/
theorem claim3_witness :
    specResolvedKey ⟨some "openai", none, some "k", none, some "hi"⟩ {} =
      some (AdapterCall.args
        (.openai ⟨"k", "gpt-4o-mini", none, "hi"⟩)).apiKey ∧
    (∃ body, handlerStep "POST"
      (some ⟨some "openai", none, none, none, some "hi"⟩) ({} : Env) =
      .done (json 400 body)) :=
  ⟨(claim3_key_resolution ⟨some "openai", none, some "k", none, some "hi"⟩
      {}).1 (.openai ⟨"k", "gpt-4o-mini", none, "hi"⟩) (by decide),
   (claim3_key_resolution ⟨some "openai", none, none, none, some "hi"⟩
      {}).2 (by decide)⟩

/-- Claim C4: for every provider response with a non-success HTTP status,
the selected adapter fails with an error message holding the numeric
status code and the stringified decoded body, and the handler surfaces it
as a 500 whose `detail` is that same message (hence contains the
status). -/
theorem claim4_upstream_error_surfaced (httpMethod : String)
    (parsed : Option Payload) (env : Env) (parse : String → Option Json)
    (res : UpstreamResponse) (c : AdapterCall)
    (hcall : handlerStep httpMethod parsed env = .call c)
    (hok : res.ok = false) :
    runAdapter c parse res =
      .error (adapterLabel c ++ ": " ++ toString res.status ++ " " ++
              stringify (safeJson parse res.text)) ∧
    handler httpMethod parsed env parse res =
      json 500 (jobj [("error", Json.str "Internal error"),
        ("detail", Json.str (adapterLabel c ++ ": " ++ toString res.status ++
          " " ++ stringify (safeJson parse res.text)))]) := by
  have herr : runAdapter c parse res =
      .error (adapterLabel c ++ ": " ++ toString res.status ++ " " ++
              stringify (safeJson parse res.text)) := by
    cases c <;>
      simp [runAdapter, callOpenAI, callGemini, callDeepSeek, adapterLabel,
            hok]
  refine ⟨herr, ?_⟩
  simp [handler, hcall, herr]

/-- Witness for C4: an upstream 401 makes the OpenAI adapter throw
`OpenAI: 401 ...` and the handler answer 500 with that message — which
contains "401" — as `detail`. -/
theorem claim4_witness :
    handlerStep "POST"
        (some ⟨some "openai", none, some "k", none, some "hi"⟩) ({} : Env) =
      .call (.openai ⟨"k", "gpt-4o-mini", none, "hi"⟩) ∧
    runAdapter (.openai ⟨"k", "gpt-4o-mini", none, "hi"⟩) (fun _ => none)
        ⟨false, 401, "denied"⟩ =
      .error ("OpenAI: 401 " ++
              stringify (jobj [("_raw", Json.str "denied")])) ∧
    handler "POST" (some ⟨some "openai", none, some "k", none, some "hi"⟩)
        ({} : Env) (fun _ => none) ⟨false, 401, "denied"⟩ =
      json 500 (jobj [("error", Json.str "Internal error"),
        ("detail", Json.str ("OpenAI: 401 " ++
          stringify (jobj [("_raw", Json.str "denied")])))]) := by
  refine ⟨by decide, ?_, ?_⟩
  · exact (claim4_upstream_error_surfaced "POST"
      (some ⟨some "openai", none, some "k", none, some "hi"⟩) {}
      (fun _ => none) ⟨false, 401, "denied"⟩
      (.openai ⟨"k", "gpt-4o-mini", none, "hi"⟩) (by decide) rfl).1
  · exact (claim4_upstream_error_surfaced "POST"
      (some ⟨some "openai", none, some "k", none, some "hi"⟩) {}
      (fun _ => none) ⟨false, 401, "denied"⟩
      (.openai ⟨"k", "gpt-4o-mini", none, "hi"⟩) (by decide) rfl).2

/-- Claim C5: decoding is total — when the body text is not valid JSON
(the parse yields nothing), `safeJson` returns the wrapper object holding
the original raw text under the `_raw` fallback key instead of raising,
so the caller always receives a structured body before the status
check. -/
theorem claim5_safejson_total (parse : String → Option Json) (text : String)
    (h : parse text = none) :
    safeJson parse text = jobj [("_raw", Json.str text)] := by
  simp [safeJson, h]

/-- Witness for C5: a non-JSON body is wrapped, not raised on. -/
theorem claim5_witness :
    safeJson (fun _ => none) "\x7bnot json" =
      jobj [("_raw", Json.str "\x7bnot json")] :=
  claim5_safejson_total (fun _ => none) "\x7bnot json" rfl

/-- Counterexample to C6 as stated: with text parts " foo" and "bar" the
concatenation of all text parts of the first candidate is " foobar", but
the adapter extracts the trimmed "foobar", so extracted text does not
equal the concatenation. -/
theorem claim6_counterexample :
    extractGeminiText (mkGeminiResponse [" foo", "bar"] []) = "foobar" ∧
    specGeminiConcat (mkGeminiResponse [" foo", "bar"] []) = " foobar" ∧
    ("foobar" : String) ≠ " foobar" := by
  decide

/-- Round trip between the two array representations. -/
theorem toList_ofList (l : List Json) :
    JsonArr.toList (JsonArr.ofList l) = l := by
  induction l with
  | nil => rfl
  | cons j l ih => simp [JsonArr.ofList, JsonArr.toList, ih]

/-- The adapter-side part mapping sends a list of string text parts to
exactly those strings. -/
theorem geminiPartTexts_ofList_map (ts : List String) :
    geminiPartTexts (JsonArr.ofList (ts.map (fun s =>
      jobj [("text", Json.str s)]))) = ts := by
  induction ts with
  | nil => rfl
  | cons s ts ih =>
      simp only [List.map_cons, JsonArr.ofList, geminiPartTexts, ih]
      by_cases hs : s = "" <;>
        simp [geminiPartText, jobj, JsonObj.ofList, Json.getField,
              JsonObj.lookup, jsTruthy, jsJoinStr, hs]

/-- The spec-side part mapping sends a list of string text parts to
exactly those strings. -/
theorem specPartText_ofList_map (ts : List String) :
    List.filterMap specPartText (ts.map (fun s =>
      jobj [("text", Json.str s)])) = ts := by
  induction ts with
  | nil => rfl
  | cons s ts ih =>
      show s :: List.filterMap specPartText (List.map (fun s =>
        jobj [("text", Json.str s)]) ts) = s :: ts
      rw [ih]

/-- Claim C6 (amended): for every successful Gemini-shaped response, the
adapter's extracted `text` equals the *trimmed* concatenation of all text
parts of the first candidate's content (so "foo" and "bar" still yield
"foobar", but leading/trailing whitespace of the concatenation is
removed). -/
theorem claim6_gemini_concat_trimmed (ts : List String) (rest : List Json) :
    extractGeminiText (mkGeminiResponse ts rest) =
      jsTrim (specGeminiConcat (mkGeminiResponse ts rest)) := by
  have h1 : extractGeminiText (mkGeminiResponse ts rest) =
      jsTrim (String.join (geminiPartTexts (JsonArr.ofList (ts.map (fun s =>
        jobj [("text", Json.str s)]))))) := rfl
  have h2 : specGeminiConcat (mkGeminiResponse ts rest) =
      String.join (((JsonArr.ofList (ts.map (fun s =>
        jobj [("text", Json.str s)]))).toList).filterMap specPartText) := rfl
  rw [h1, h2, geminiPartTexts_ofList_map, toList_ofList,
      specPartText_ofList_map]

/-- Claim C7: for every OpenAI-shaped response whose first choice's
message content is the string `s`, the adapter extracts `text` from that
field (trimmed); in particular content "hello" yields text "hello". -/
theorem claim7_openai_extraction (raw : Json) (s : String)
    (h : openAIContent raw = some (Json.str s)) :
    extractOpenAIText raw = jsTrim s := by
  simp [extractOpenAIText, h]

/-- Witness for C7: `choices[0].message.content = "hello"` yields
`text = "hello"`. -/
theorem claim7_witness :
    openAIContent (jobj [("choices", jarr [jobj [("message",
        jobj [("content", Json.str "hello")])]])]) = some (Json.str "hello") ∧
    extractOpenAIText (jobj [("choices", jarr [jobj [("message",
        jobj [("content", Json.str "hello")])]])]) = "hello" :=
  ⟨rfl, claim7_openai_extraction _ "hello" rfl⟩

/-- Counterexample to C8 as stated: at concrete arguments, the DeepSeek
outbound request body consists of exactly `model`, `messages` and
`temperature` — it has no maximum-tokens field of any kind. -/
theorem claim8_counterexample :
    deepSeekRequestBody ⟨"k", "deepseek-chat", none, "hi"⟩ =
      jobj [("model", Json.str "deepseek-chat"),
            ("messages", jarr [jobj [("role", Json.str "user"),
                                     ("content", Json.str "hi")]]),
            ("temperature", Json.num (7 / 10))] ∧
    (deepSeekRequestBody ⟨"k", "deepseek-chat", none, "hi"⟩).getField
      "max_tokens" = none :=
  ⟨rfl, rfl⟩

/-- Claim C8 (amended): for every request routed to the DeepSeek adapter,
the outbound request body does *not* constrain output length via a token
cap — it is identical in shape to the OpenAI variant (model, messages,
temperature) and carries no `max_tokens` field. -/
theorem claim8_deepseek_no_token_cap (a : AdapterArgs) :
    deepSeekRequestBody a = openAIRequestBody a ∧
    (deepSeekRequestBody a).getField "max_tokens" = none :=
  ⟨rfl, rfl⟩

/-- Claim C9: provider matching is case-insensitive — two non-empty
provider strings with the same lowercasing lead the handler to the same
step (same adapter selected, same default model, same configured key),
e.g. "OpenAI" and "openai". -/
theorem claim9_provider_case_insensitive (s t : String) (payload : Payload)
    (env : Env) (hs : s ≠ "") (ht : t ≠ "") (h : jsToLower s = jsToLower t) :
    handlerStep "POST" (some { payload with provider := some s }) env =
      handlerStep "POST" (some { payload with provider := some t }) env := by
  simp [handlerStep, routeRequest, jsOr, hs, ht, h]

/-- Witness for C9: "OpenAI" and "openai" are routed identically. -/
theorem claim9_witness :
    handlerStep "POST"
      (some ⟨some "OpenAI", none, some "k", none, some "hi"⟩) ({} : Env) =
    handlerStep "POST"
      (some ⟨some "openai", none, some "k", none, some "hi"⟩) ({} : Env) :=
  claim9_provider_case_insensitive "OpenAI" "openai"
    ⟨none, none, some "k", none, some "hi"⟩ {}
    (by decide) (by decide) (by decide)

/-- Claim C10: API-key resolution is checked before provider-name
validation — a request with an unsupported provider, a non-empty message
and no key override gets the missing-API-key 400 (the unsupported
providers have no configured default), not the unsupported-provider
400. -/
theorem claim10_key_checked_before_provider (payload : Payload) (env : Env)
    (hp : requestProvider payload ∉ ["openai", "gemini", "deepseek"])
    (hm : jsTrim (jsOr payload.message "") ≠ "")
    (hk : jsTrim (jsOr payload.apiKey "") = "") :
    handlerStep "POST" (some payload) env =
      .done (json 400 (jobj [("error", Json.str
        ("Missing API key for provider \x27" ++ requestProvider payload ++
         "\x27."))])) := by
  simp only [List.mem_cons, List.not_mem_nil, or_false, not_or] at hp
  obtain ⟨h1, h2, h3⟩ := hp
  have henv : envKeyFor (requestProvider payload) env = "" := by
    unfold envKeyFor
    rw [if_neg h1, if_neg h2, if_neg h3]
  simp only [handlerStep, requestProvider] at *
  rw [if_neg (by decide), if_neg (by decide)]
  simp only [routeRequest]
  split_ifs <;> first | rfl | simp_all

/-- Witness for C10: provider "anthropic" with no key gets the
missing-API-key error, not the unsupported-provider error. -/
theorem claim10_witness :
    handlerStep "POST"
      (some ⟨some "anthropic", none, none, none, some "hi"⟩) ({} : Env) =
      .done (json 400 (jobj [("error", Json.str
        ("Missing API key for provider \x27" ++
         requestProvider ⟨some "anthropic", none, none, none, some "hi"⟩ ++
         "\x27."))])) :=
  claim10_key_checked_before_provider
    ⟨some "anthropic", none, none, none, some "hi"⟩ {}
    (by decide) (by decide) (by decide)

end AiProxy
